import Mathlib

/-!
# Filler operators of caffe2 (`caffe2/operators/filler_op.cc`)

A shallow embedding of

* `FillerTensorInference`, the static shape inference shared by the filler
  operators;
* `RangeFillOp<float, CPUContext>::Fill`;
* the three registration tables the file populates
  (`REGISTER_CPU_OPERATOR`, `OPERATOR_SCHEMA`, `NO_GRADIENT`).

Machine integers are mathematical integers with the C++ conversions written
out: `static_cast_int` is the conversion of a wider integer to `int`
(32 bits, two's complement), and `static_cast_float` is the conversion of an
`int` to `float` (IEEE-754 single precision, round to nearest, ties to even).
-/

namespace caffe2

/-! ## Machine integers -/

/-- The largest value of the C++ type `int` (32 bits). -/
def INT_MAX : Int := 2147483647

/-- The smallest value of the C++ type `int` (32 bits). -/
def INT_MIN : Int := -2147483648

/-- Conversion of a 64-bit integer to `int`, as in `int d = <int64 value>`:
the value is reduced modulo `2^32` into the range of `int`. -/
def static_cast_int (v : Int) : Int :=
  (v + 2147483648) % 4294967296 - 2147483648

/-- Conversion of an integer to `bool`: every non-zero value is `true`. -/
def static_cast_bool (v : Int) : Bool :=
  v != 0

/-! ## Protocol-buffer messages -/

/-- Modelled from the spec: the message `Argument` is declared in the
protocol-buffer file, outside this source file. An argument of the "operator
configuration surface" is a named value: a scalar, a sequence or text. An
integer field holds 64 bits; an unset scalar field reads as zero and an unset
sequence as empty. The float fields are kept as raw bit patterns; the code of
this file never reads them. -/
structure Argument where
  name : String
  f : Nat
  i : Int
  s : String
  floats : List Nat
  ints : List Int
  strings : List String
  deriving DecidableEq, Repr

/-- Modelled from the spec: the message `OperatorDef` is declared in the
protocol-buffer file, outside this source file: "the operator's static
configuration", that is the operator type, its blob names and its
arguments. -/
structure OperatorDef where
  input : List String
  output : List String
  name : String
  type : String
  arg : List Argument
  deriving DecidableEq, Repr

/-- Modelled from the spec: the enum `TensorProto_DataType` is declared in the
protocol-buffer file, which is not part of this source file; the tag of
"32-bit float", the default of the `dtype` argument. -/
def TensorProto_DataType_FLOAT : Int := 1

/-- Modelled from the spec: the message `TensorShape` is declared in the
protocol-buffer file, outside this source file: "an ordered sequence of
non-negative dimension sizes, plus a data-type tag and an unknown flag". A
dimension is a 64-bit integer. -/
structure TensorShape where
  dims : List Int
  data_type : Int
  unknown_shape : Bool
  deriving DecidableEq, Repr

/-- A default-constructed `TensorShape`, as the elements of
`vector<TensorShape> out(1)`. -/
def TensorShape.empty : TensorShape :=
  { dims := [], data_type := TensorProto_DataType_FLOAT, unknown_shape := false }

/-- The setter `set_data_type`. -/
def TensorShape.set_data_type (t : TensorShape) (v : Int) : TensorShape :=
  { t with data_type := v }

/-- The setter `set_unknown_shape`. -/
def TensorShape.set_unknown_shape (t : TensorShape) (v : Bool) : TensorShape :=
  { t with unknown_shape := v }

/-- The method `add_dims`: appends one 64-bit dimension. -/
def TensorShape.add_dims (t : TensorShape) (d : Int) : TensorShape :=
  { t with dims := t.dims ++ [d] }

/-! ## The argument helper -/

/-- Modelled from the spec: the class `ArgumentHelper` is declared outside this
source file. It indexes the arguments of an operator definition by name; an
argument that is absent reads as the default the caller passes ("default:
32-bit float" for `dtype`), an absent repeated argument as the empty sequence
("an absent `shape` argument ... simply yields an empty dimension sequence").
The spec describes no failure of a lookup. -/
structure ArgumentHelper where
  arg_map : List Argument
  deriving DecidableEq, Repr

/-- The constructor `ArgumentHelper helper(def)`. -/
def ArgumentHelper.ofDef (def_ : OperatorDef) : ArgumentHelper :=
  { arg_map := def_.arg }

/-- The argument registered under `name`, if there is one. -/
def ArgumentHelper.find (helper : ArgumentHelper) (name : String) : Option Argument :=
  helper.arg_map.find? (fun a => a.name == name)

/-- Whether an argument called `name` is present. -/
def ArgumentHelper.HasArgument (helper : ArgumentHelper) (name : String) : Bool :=
  (helper.find name).isSome

/-- Modelled from the spec: `GetSingleArgument<int>(name, default_value)`: the
integer field of the argument, converted to `int`, or the default when the
argument is absent. -/
def ArgumentHelper.GetSingleArgument_int (helper : ArgumentHelper) (name : String)
    (default_value : Int) : Int :=
  match helper.find name with
  | none => default_value
  | some a => static_cast_int a.i

/-- Modelled from the spec: `GetSingleArgument<bool>(name, default_value)`: the
integer field of the argument, converted to `bool`, or the default when the
argument is absent. -/
def ArgumentHelper.GetSingleArgument_bool (helper : ArgumentHelper) (name : String)
    (default_value : Bool) : Bool :=
  match helper.find name with
  | none => default_value
  | some a => static_cast_bool a.i

/-- Modelled from the spec: `GetRepeatedArgument<int>(name)`: the repeated
integer field of the argument, each element converted to `int`, or the empty
vector when the argument is absent. -/
def ArgumentHelper.GetRepeatedArgument_int (helper : ArgumentHelper) (name : String) :
    List Int :=
  match helper.find name with
  | none => []
  | some a => a.ints.map static_cast_int

/-! ## `FillerTensorInference` -/

/-- The loop `for (int d : ds) out.add_dims(d)`: each element is converted to
`int` on its way into the loop variable and widened again by `add_dims`. -/
def add_dims_loop (out : TensorShape) : List Int → TensorShape
  | [] => out
  | d :: ds => add_dims_loop (out.add_dims (static_cast_int d)) ds

/-- The function `FillerTensorInference(def, in)`. -/
def FillerTensorInference (def_ : OperatorDef) (in_ : List TensorShape) :
    List TensorShape :=
  let out0 := TensorShape.empty
  let helper := ArgumentHelper.ofDef def_
  let out0 := out0.set_data_type
    (helper.GetSingleArgument_int "dtype" TensorProto_DataType_FLOAT)
  match in_ with
  | in0 :: _ =>
    let input_as_shape := helper.GetSingleArgument_bool "input_as_shape" false
    if input_as_shape then
      [out0.set_unknown_shape true]
    else
      [add_dims_loop out0 in0.dims]
  | [] =>
    let shape := helper.GetRepeatedArgument_int "shape"
    [add_dims_loop out0 shape]

/-- An argument that carries a single integer. -/
def MakeArgument_int (name : String) (v : Int) : Argument :=
  { name := name, f := 0, i := v, s := "", floats := [], ints := [], strings := [] }

/-- An argument that carries a sequence of integers. -/
def MakeArgument_ints (name : String) (vs : List Int) : Argument :=
  { name := name, f := 0, i := 0, s := "", floats := [], ints := vs, strings := [] }

/-- An operator definition of the given type with the given arguments. -/
def CreateOperatorDef (type : String) (args : List Argument) : OperatorDef :=
  { input := [], output := ["out"], name := "", type := type, arg := args }

/-! ## `RangeFillOp<float, CPUContext>::Fill` -/

/-- The number of low bits of `n` that do not fit into a significand of 24
bits: the least `e` with `n / 2^e < 2^24`. The first argument bounds the
number of halvings; `n` itself is always enough. -/
def excess_bits : Nat → Nat → Nat
  | 0, _ => 0
  | fuel + 1, n => if n < 16777216 then 0 else excess_bits fuel (n / 2) + 1

/-- Conversion of a non-negative integer to `float` (IEEE-754 single
precision, 24 significant bits, round to nearest, ties to even), given by the
number the resulting float denotes: the `e` low bits that do not fit are
rounded away. (Below `2^128`, which covers every `int`, the result is
finite.) -/
def round_to_float (n : Nat) : Nat :=
  let e := excess_bits n n
  let q := n / 2 ^ e
  let r := n % 2 ^ e
  if 2 * r > 2 ^ e ∨ (2 * r = 2 ^ e ∧ q % 2 = 1) then (q + 1) * 2 ^ e else q * 2 ^ e

/-- Conversion of an `int` to `float`, as in `data[i] = i`. -/
def static_cast_float (v : Int) : Int :=
  if v < 0 then -((round_to_float v.natAbs : Nat) : Int) else ((round_to_float v.natAbs : Nat) : Int)

/-- Modelled from the spec: the class `Tensor` is declared outside this source
file: "contiguous owned storage of a declared element type, sized according
to the resolved shape". The storage holds `float` elements, each given by the
number it denotes. -/
structure TensorCPU where
  dims : List Nat
  data : List Int
  deriving DecidableEq, Repr

/-- The method `size()`: the number of elements, the product of the
dimensions. -/
def TensorCPU.size (t : TensorCPU) : Nat :=
  t.dims.prod

/-- The storage of a tensor holds exactly `size()` elements. -/
def TensorCPU.WellFormed (t : TensorCPU) : Prop :=
  t.data.length = t.size

instance (t : TensorCPU) : Decidable t.WellFormed :=
  inferInstanceAs (Decidable (t.data.length = t.size))

/-- The loop `for (int i = 0; i < size; ++i) data[i] = i;` from the state
`(i, data)`. The result is `none` where the C++ program has no defined
behaviour: a store past the end of the storage, or `++i` at `INT_MAX`. -/
def RangeFillOp.Fill_loop (size : Nat) (i : Nat) (data : List Int) : Option (List Int) :=
  if i < size then
    if i < data.length then
      let data1 := data.set i (static_cast_float (i : Int))
      if (i : Int) = INT_MAX then none
      else RangeFillOp.Fill_loop size (i + 1) data1
    else none
  else some data
termination_by size - i

/-- The method `RangeFillOp<float, CPUContext>::Fill(output)`: the returned
flag and the tensor after the call. -/
def RangeFillOp.Fill (output : TensorCPU) : Option (Bool × TensorCPU) :=
  match RangeFillOp.Fill_loop output.size 0 output.data with
  | none => none
  | some data => some (true, { output with data := data })

/-! ## The registration tables -/

/-- The entries `REGISTER_CPU_OPERATOR(name, class)` of the file, in order:
the operator name and the class that implements it. -/
def CPUOperatorRegistry : List (String × String) :=
  [ ("UniformFill", "UniformFillOp<float, CPUContext>"),
    ("UniformIntFill", "UniformFillOp<int, CPUContext>"),
    ("ConstantFill", "ConstantFillOp<CPUContext>"),
    ("GivenTensorFill", "GivenTensorFillOp<float, CPUContext>"),
    ("GivenTensorIntFill", "GivenTensorFillOp<int, CPUContext>"),
    ("GivenTensorInt64Fill", "GivenTensorFillOp<int64_t, CPUContext>"),
    ("GivenTensorStringFill", "GivenTensorFillOp<std::string, CPUContext>"),
    ("GaussianFill", "GaussianFillOp<float, CPUContext>"),
    ("XavierFill", "XavierFillOp<float, CPUContext>"),
    ("MSRAFill", "MSRAFillOp<float, CPUContext>"),
    ("RangeFill", "RangeFillOp<float, CPUContext>"),
    ("LengthsRangeFill", "LengthsRangeFillOp<CPUContext>") ]

/-- The names registered as CPU operators. -/
def RegisteredCPUOperators : List String :=
  CPUOperatorRegistry.map Prod.fst

/-- Modelled from the spec: the class `OpSchema` is declared outside this
source file: "declarative metadata (input/output arity, in-place aliasing
permission, ...) attached per operator kind". The documentation calls
(`SetDoc`, `Arg`, `Input`, `Output`) leave these fields alone and are not
modelled. -/
structure OpSchema where
  min_input : Nat
  max_input : Nat
  min_output : Nat
  max_output : Nat
  inplace_allowed : List (Nat × Nat)
  tensor_inference_function : Option (OperatorDef → List TensorShape → List TensorShape)

/-- A fresh schema, as `OPERATOR_SCHEMA(name)` creates it: no constraint on
the arity, nothing in place, no inference function. -/
def OpSchema.fresh : OpSchema :=
  { min_input := 0, max_input := 2147483647, min_output := 0, max_output := 2147483647,
    inplace_allowed := [], tensor_inference_function := none }

/-- The call `.NumInputs(min, max)`. -/
def OpSchema.NumInputs (s : OpSchema) (min max : Nat) : OpSchema :=
  { s with min_input := min, max_input := max }

/-- The call `.NumInputs(n)`: exactly `n` inputs. -/
def OpSchema.NumInputs1 (s : OpSchema) (n : Nat) : OpSchema :=
  s.NumInputs n n

/-- The call `.NumOutputs(n)`: exactly `n` outputs. -/
def OpSchema.NumOutputs (s : OpSchema) (n : Nat) : OpSchema :=
  { s with min_output := n, max_output := n }

/-- The call `.AllowInplace(pairs)`. -/
def OpSchema.AllowInplace (s : OpSchema) (pairs : List (Nat × Nat)) : OpSchema :=
  { s with inplace_allowed := pairs }

/-- The call `.TensorInferenceFunction(f)`. -/
def OpSchema.TensorInferenceFunction (s : OpSchema)
    (f : OperatorDef → List TensorShape → List TensorShape) : OpSchema :=
  { s with tensor_inference_function := some f }

/-- The entries `OPERATOR_SCHEMA(name)` of the file, in order, each with the
calls that follow it. -/
def OpSchemaRegistry : List (String × OpSchema) :=
  [
    ("ConstantFill",
      (((OpSchema.fresh.NumInputs 0 1).NumOutputs 1).AllowInplace [(0, 0)]).TensorInferenceFunction
        FillerTensorInference),
    ("UniformFill",
      (((OpSchema.fresh.NumInputs 0 1).NumOutputs 1).AllowInplace [(0, 0)]).TensorInferenceFunction
        FillerTensorInference),
    ("UniformIntFill",
      (((OpSchema.fresh.NumInputs 0 1).NumOutputs 1).AllowInplace [(0, 0)]).TensorInferenceFunction
        FillerTensorInference),
    ("GivenTensorFill",
      (((OpSchema.fresh.NumInputs 0 1).NumOutputs 1).AllowInplace [(0, 0)]).TensorInferenceFunction
        FillerTensorInference),
    ("GivenTensorIntFill",
      (((OpSchema.fresh.NumInputs 0 1).NumOutputs 1).AllowInplace [(0, 0)]).TensorInferenceFunction
        FillerTensorInference),
    ("GivenTensorInt64Fill",
      (((OpSchema.fresh.NumInputs 0 1).NumOutputs 1).AllowInplace [(0, 0)]).TensorInferenceFunction
        FillerTensorInference),
    ("GivenTensorStringFill",
      (((OpSchema.fresh.NumInputs 0 1).NumOutputs 1).AllowInplace [(0, 0)]).TensorInferenceFunction
        FillerTensorInference),
    ("GaussianFill",
      (((OpSchema.fresh.NumInputs 0 1).NumOutputs 1).AllowInplace [(0, 0)]).TensorInferenceFunction
        FillerTensorInference),
    ("XavierFill",
      (((OpSchema.fresh.NumInputs 0 1).NumOutputs 1).AllowInplace [(0, 0)]).TensorInferenceFunction
        FillerTensorInference),
    ("MSRAFill",
      (((OpSchema.fresh.NumInputs 0 1).NumOutputs 1).AllowInplace [(0, 0)]).TensorInferenceFunction
        FillerTensorInference),
    ("RangeFill",
      (((OpSchema.fresh.NumInputs 0 1).NumOutputs 1).AllowInplace [(0, 0)]).TensorInferenceFunction
        FillerTensorInference),
    ("LengthsRangeFill", (OpSchema.fresh.NumInputs1 1).NumOutputs 1) ]

/-- The schema registered under `name`, if there is one. -/
def OpSchemaRegistry.Schema (name : String) : Option OpSchema :=
  (OpSchemaRegistry.find? (fun e => e.1 == name)).map Prod.snd

/-- The entries `NO_GRADIENT(name)` of the file, in order. -/
def NoGradientRegistry : List String :=
  [ "UniformFill", "UniformIntFill", "ConstantFill", "GivenTensorFill",
    "GivenTensorIntFill", "GivenTensorInt64Fill", "GaussianFill", "XavierFill",
    "MSRAFill", "RangeFill", "LengthsRangeFill" ]

/-! ## Auxiliary facts -/

theorem static_cast_int_of_range (v : Int) (h1 : INT_MIN ≤ v) (h2 : v ≤ INT_MAX) :
    static_cast_int v = v := by
  unfold static_cast_int
  unfold INT_MIN at h1
  unfold INT_MAX at h2
  omega

theorem static_cast_int_range (v : Int) :
    INT_MIN ≤ static_cast_int v ∧ static_cast_int v ≤ INT_MAX := by
  unfold static_cast_int INT_MIN INT_MAX
  omega

theorem static_cast_int_idem (v : Int) :
    static_cast_int (static_cast_int v) = static_cast_int v :=
  static_cast_int_of_range _ (static_cast_int_range v).1 (static_cast_int_range v).2

theorem map_static_cast_int_idem (vs : List Int) :
    (vs.map static_cast_int).map static_cast_int = vs.map static_cast_int := by
  induction vs with
  | nil => rfl
  | cons v vs ih => simp [static_cast_int_idem]

theorem map_static_cast_int_of_range (vs : List Int)
    (h : ∀ v ∈ vs, INT_MIN ≤ v ∧ v ≤ INT_MAX) : vs.map static_cast_int = vs := by
  induction vs with
  | nil => rfl
  | cons v vs ih =>
    have hv := h v (List.mem_cons_self v vs)
    have hvs : ∀ w ∈ vs, INT_MIN ≤ w ∧ w ≤ INT_MAX :=
      fun w hw => h w (List.mem_cons_of_mem v hw)
    simp [static_cast_int_of_range v hv.1 hv.2, ih hvs]

/-- The loop appends the converted elements, in order, to the dimensions the
shape already has and touches nothing else. -/
theorem add_dims_loop_eq (out : TensorShape) (ds : List Int) :
    add_dims_loop out ds =
      { dims := out.dims ++ ds.map static_cast_int,
        data_type := out.data_type,
        unknown_shape := out.unknown_shape } := by
  induction ds generalizing out with
  | nil => simp [add_dims_loop]
  | cons d ds ih => simp [add_dims_loop, ih, TensorShape.add_dims]

/-- The three branches of `FillerTensorInference`, written out. -/
theorem FillerTensorInference_nil (def_ : OperatorDef) :
    FillerTensorInference def_ [] =
      [{ dims := (ArgumentHelper.ofDef def_).GetRepeatedArgument_int "shape",
         data_type := (ArgumentHelper.ofDef def_).GetSingleArgument_int "dtype"
           TensorProto_DataType_FLOAT,
         unknown_shape := false }] := by
  have hidem : ((ArgumentHelper.ofDef def_).GetRepeatedArgument_int "shape").map
      static_cast_int = (ArgumentHelper.ofDef def_).GetRepeatedArgument_int "shape" := by
    unfold ArgumentHelper.GetRepeatedArgument_int
    cases (ArgumentHelper.ofDef def_).find "shape" with
    | none => rfl
    | some a => exact map_static_cast_int_idem a.ints
  simp [FillerTensorInference, add_dims_loop_eq, TensorShape.empty,
    TensorShape.set_data_type, hidem]

theorem FillerTensorInference_cons_unknown (def_ : OperatorDef) (in0 : TensorShape)
    (rest : List TensorShape)
    (h : (ArgumentHelper.ofDef def_).GetSingleArgument_bool "input_as_shape" false = true) :
    FillerTensorInference def_ (in0 :: rest) =
      [{ dims := [],
         data_type := (ArgumentHelper.ofDef def_).GetSingleArgument_int "dtype"
           TensorProto_DataType_FLOAT,
         unknown_shape := true }] := by
  simp [FillerTensorInference, h, TensorShape.empty, TensorShape.set_data_type,
    TensorShape.set_unknown_shape]

theorem FillerTensorInference_cons_known (def_ : OperatorDef) (in0 : TensorShape)
    (rest : List TensorShape)
    (h : (ArgumentHelper.ofDef def_).GetSingleArgument_bool "input_as_shape" false = false) :
    FillerTensorInference def_ (in0 :: rest) =
      [{ dims := in0.dims.map static_cast_int,
         data_type := (ArgumentHelper.ofDef def_).GetSingleArgument_int "dtype"
           TensorProto_DataType_FLOAT,
         unknown_shape := false }] := by
  simp [FillerTensorInference, h, add_dims_loop_eq, TensorShape.empty,
    TensorShape.set_data_type]

/-- Within the range of `int` the dimensions of the first input are copied
verbatim. -/
theorem FillerTensorInference_input_dims_in_range (def_ : OperatorDef) (in0 : TensorShape)
    (rest : List TensorShape)
    (h : (ArgumentHelper.ofDef def_).GetSingleArgument_bool "input_as_shape" false = false)
    (hr : ∀ d ∈ in0.dims, INT_MIN ≤ d ∧ d ≤ INT_MAX) :
    (FillerTensorInference def_ (in0 :: rest)).map TensorShape.dims = [in0.dims] := by
  rw [FillerTensorInference_cons_known def_ in0 rest h]
  simp [map_static_cast_int_of_range in0.dims hr]

/-! ### The fill loop -/

theorem excess_bits_of_lt (fuel n : Nat) (h : n < 16777216) : excess_bits fuel n = 0 := by
  cases fuel with
  | zero => rfl
  | succ f => simp [excess_bits, h]

/-- The halvings are enough: what is left of `n` fits 24 bits. -/
theorem excess_bits_fits (fuel : Nat) :
    ∀ n : Nat, n ≤ fuel → n / 2 ^ excess_bits fuel n < 16777216 := by
  induction fuel with
  | zero =>
    intro n hn
    have h0 : n = 0 := by omega
    subst h0
    simp [excess_bits]
  | succ f ih =>
    intro n hn
    by_cases h : n < 16777216
    · simp [excess_bits, h]
    · have hhalf : n / 2 ≤ f := by omega
      have hrec := ih (n / 2) hhalf
      simp only [excess_bits, h, if_false]
      rw [Nat.pow_succ, Nat.mul_comm, ← Nat.div_div_eq_div_mul]
      exact hrec

/-- Not one halving too many: when bits are dropped, the 24th bit of what is
left is set. -/
theorem excess_bits_tight (fuel : Nat) :
    ∀ n : Nat, 0 < excess_bits fuel n → 8388608 ≤ n / 2 ^ excess_bits fuel n := by
  induction fuel with
  | zero =>
    intro n hpos
    simp [excess_bits] at hpos
  | succ f ih =>
    intro n hpos
    by_cases h : n < 16777216
    · simp [excess_bits, h] at hpos
    · simp only [excess_bits, h, if_false]
      rw [Nat.pow_succ, Nat.mul_comm, ← Nat.div_div_eq_div_mul]
      by_cases hz : 0 < excess_bits f (n / 2)
      · exact ih (n / 2) hz
      · have hz0 : excess_bits f (n / 2) = 0 := by omega
        rw [hz0]
        simp only [Nat.pow_zero, Nat.div_one]
        omega

/-- The conversion returns a multiple of `2^e` within half of `2^e` of its
argument, where `e` is the number of bits dropped: a nearest `float`. -/
theorem round_to_float_nearest (n : Nat) :
    2 ^ excess_bits n n ∣ round_to_float n ∧
    2 * round_to_float n ≤ 2 * n + 2 ^ excess_bits n n ∧
    2 * n ≤ 2 * round_to_float n + 2 ^ excess_bits n n := by
  have hdm : 2 ^ excess_bits n n * (n / 2 ^ excess_bits n n) + n % 2 ^ excess_bits n n = n :=
    Nat.div_add_mod n (2 ^ excess_bits n n)
  have hmul : (n / 2 ^ excess_bits n n + 1) * 2 ^ excess_bits n n =
      2 ^ excess_bits n n * (n / 2 ^ excess_bits n n) + 2 ^ excess_bits n n := by
    rw [Nat.succ_mul, Nat.mul_comm]
  have hmul2 : (n / 2 ^ excess_bits n n) * 2 ^ excess_bits n n =
      2 ^ excess_bits n n * (n / 2 ^ excess_bits n n) := Nat.mul_comm _ _
  unfold round_to_float
  simp only
  split
  · rename_i hup
    refine ⟨Dvd.intro_left _ rfl, ?_, ?_⟩
    · rw [hmul]
      rcases hup with hup | hup <;> omega
    · rw [hmul]
      omega
  · rename_i hdown
    have hle : 2 * (n % 2 ^ excess_bits n n) ≤ 2 ^ excess_bits n n := by
      by_contra hc
      exact hdown (Or.inl (by omega))
    refine ⟨Dvd.intro_left _ rfl, ?_, ?_⟩
    · rw [hmul2]
      omega
    · rw [hmul2]
      omega

theorem round_to_float_of_lt (n : Nat) (h : n < 16777216) : round_to_float n = n := by
  simp [round_to_float, excess_bits_of_lt n n h, Nat.mod_one]

theorem round_to_float_of_le (n : Nat) (h : n ≤ 16777216) : round_to_float n = n := by
  rcases Nat.lt_or_ge n 16777216 with h1 | h1
  · exact round_to_float_of_lt n h1
  · have h2 : n = 16777216 := Nat.le_antisymm h h1
    subst h2
    decide

theorem static_cast_float_of_le (n : Nat) (h : n ≤ 16777216) :
    static_cast_float (n : Int) = (n : Int) := by
  have hneg : ¬ ((n : Int) < 0) := by omega
  simp [static_cast_float, hneg, round_to_float_of_le n h]

theorem take_succ_set (data : List Int) (i : Nat) (v : Int) (h : i < data.length) :
    (data.set i v).take (i + 1) = data.take i ++ [v] := by
  induction data generalizing i with
  | nil => simp at h
  | cons x xs ih =>
    cases i with
    | zero => simp
    | succ j =>
      have hj : j < xs.length := by simpa using h
      simp [ih j hj]

/-- The loop from the state `(i, data)` keeps the first `i` elements and
stores the converted counter in every later position. -/
theorem Fill_loop_eq (size : Nat) (hs : (size : Int) ≤ INT_MAX) :
    ∀ (k i : Nat) (data : List Int), size - i = k → i ≤ size → data.length = size →
      RangeFillOp.Fill_loop size i data =
        some (data.take i ++ (List.range' i (size - i)).map
          (fun (j : Nat) => static_cast_float (j : Int))) := by
  intro k
  induction k with
  | zero =>
    intro i data hk hi hlen
    have hi2 : i = size := by omega
    subst hi2
    rw [RangeFillOp.Fill_loop]
    simp [← hlen]
  | succ k ih =>
    intro i data hk hi hlen
    have hlt : i < size := by omega
    have hne : ¬ ((i : Int) = INT_MAX) := by omega
    rw [RangeFillOp.Fill_loop]
    simp only [hlt, hlen, if_true, hne, if_false]
    rw [ih (i + 1) _ (by omega) (by omega) (by simp [hlen])]
    have hr : size - i = (size - (i + 1)) + 1 := by omega
    rw [hr, List.range'_succ]
    have hil : i < data.length := by omega
    rw [take_succ_set data i _ hil]
    simp

/-- The whole call on a well-formed tensor whose size fits an `int`. -/
theorem Fill_eq (output : TensorCPU) (hw : output.WellFormed)
    (hn : (output.size : Int) ≤ INT_MAX) :
    RangeFillOp.Fill output =
      some (true, { dims := output.dims,
                    data := (List.range output.size).map
                      (fun (i : Nat) => static_cast_float (i : Int)) }) := by
  have h := Fill_loop_eq output.size hn output.size 0 output.data (by omega) (by omega) hw
  simp only [RangeFillOp.Fill, h, List.take_zero, List.nil_append, Nat.sub_zero]
  rw [List.range_eq_range']

theorem map_static_cast_float_range (n : Nat) (h : n ≤ 16777217) :
    (List.range n).map (fun (i : Nat) => static_cast_float (i : Int)) =
      (List.range n).map (fun (i : Nat) => (i : Int)) := by
  apply List.map_congr_left
  intro i hi
  have hi2 : i < n := List.mem_range.mp hi
  exact static_cast_float_of_le i (by omega)

theorem getElem?_map_range (f : Nat → Int) (n k : Nat) (h : k < n) :
    ((List.range n).map f)[k]? = some (f k) := by
  rw [List.getElem?_map, List.getElem?_range h]
  rfl

/-- The first integer that `float` cannot hold is rounded down. -/
theorem static_cast_float_16777217 :
    static_cast_float ((16777217 : Nat) : Int) = 16777216 := by
  decide

/-- The call on a zeroed one-dimensional buffer of 16777218 elements. -/
theorem Fill_large_buffer :
    RangeFillOp.Fill (TensorCPU.mk [16777218] (List.replicate 16777218 0)) =
      some (true, TensorCPU.mk [16777218]
        ((List.range 16777218).map (fun (i : Nat) => static_cast_float (i : Int)))) := by
  have hw : TensorCPU.WellFormed (TensorCPU.mk [16777218] (List.replicate 16777218 0)) := by
    simp only [TensorCPU.WellFormed, TensorCPU.size, List.length_replicate, List.prod_cons,
      List.prod_nil, Nat.mul_one]
  have hn : ((TensorCPU.size (TensorCPU.mk [16777218] (List.replicate 16777218 0)) : Nat)
      : Int) ≤ INT_MAX := by
    simp [TensorCPU.size, INT_MAX]
  have h := Fill_eq _ hw hn
  simp only [TensorCPU.size, List.prod_cons, List.prod_nil, Nat.mul_one] at h
  exact h

/-! ## The statements of the specification -/

/-! ### C1 -/

/-- C1: a dimension of the first input that does not fit an `int` is not
copied verbatim. With no `input_as_shape` argument and the one-dimensional
input shape `[2147483648]`, the inferred shape is `[-2147483648]`: the loop
variable `int d` narrows the 64-bit dimension. -/
theorem FillerTensorInference_input_dims_narrowed :
    (ArgumentHelper.ofDef (CreateOperatorDef "ConstantFill" [])).HasArgument
        "input_as_shape" = false ∧
    FillerTensorInference (CreateOperatorDef "ConstantFill" [])
        [{ dims := [2147483648], data_type := 1, unknown_shape := false }] =
      [{ dims := [-2147483648], data_type := 1, unknown_shape := false }] ∧
    (FillerTensorInference (CreateOperatorDef "ConstantFill" [])
        [{ dims := [2147483648], data_type := 1, unknown_shape := false }]).map
      TensorShape.dims ≠ [[2147483648]] := by
  decide

/-! ### C2 -/

/-- C2: with no input shapes, the inferred shape has exactly the dimensions
the `shape` argument holds (as `GetRepeatedArgument<int>` reads it), and any
other operator definition with the same `shape` argument, whatever its
`dtype`, is given the same dimensions. -/
theorem FillerTensorInference_explicit_shape (def_ : OperatorDef) (ds : List Int)
    (h : (ArgumentHelper.ofDef def_).GetRepeatedArgument_int "shape" = ds) :
    (FillerTensorInference def_ []).map TensorShape.dims = [ds] ∧
    (FillerTensorInference def_ []).map TensorShape.unknown_shape = [false] ∧
    ∀ def2 : OperatorDef,
      (ArgumentHelper.ofDef def2).GetRepeatedArgument_int "shape" = ds →
      (FillerTensorInference def2 []).map TensorShape.dims =
        (FillerTensorInference def_ []).map TensorShape.dims := by
  refine ⟨?_, ?_, ?_⟩
  · simp [FillerTensorInference_nil, h]
  · simp [FillerTensorInference_nil]
  · intro def2 h2
    simp [FillerTensorInference_nil, h, h2]

/-- C2, at the shape `[2, 3]` with `dtype` 2. -/
theorem FillerTensorInference_explicit_shape_witness :
    (ArgumentHelper.ofDef (CreateOperatorDef "GivenTensorIntFill"
        [MakeArgument_ints "shape" [2, 3], MakeArgument_int "dtype" 2])).GetRepeatedArgument_int
        "shape" = [2, 3] ∧
    (FillerTensorInference (CreateOperatorDef "GivenTensorIntFill"
        [MakeArgument_ints "shape" [2, 3], MakeArgument_int "dtype" 2]) []).map
      TensorShape.dims = [[2, 3]] :=
  ⟨by decide,
   (FillerTensorInference_explicit_shape (CreateOperatorDef "GivenTensorIntFill"
      [MakeArgument_ints "shape" [2, 3], MakeArgument_int "dtype" 2]) [2, 3] (by decide)).1⟩

/-! ### C3 -/

/-- C3 as stated fails on the empty list of input shapes: with
`input_as_shape` true and no input, the inferred shape is not marked
unknown. -/
theorem FillerTensorInference_input_as_shape_without_input :
    (ArgumentHelper.ofDef (CreateOperatorDef "ConstantFill"
        [MakeArgument_int "input_as_shape" 1])).GetSingleArgument_bool
        "input_as_shape" false = true ∧
    FillerTensorInference (CreateOperatorDef "ConstantFill"
        [MakeArgument_int "input_as_shape" 1]) [] =
      [{ dims := [], data_type := TensorProto_DataType_FLOAT, unknown_shape := false }] := by
  decide

/-- C3, amended: when `input_as_shape` is true and the list of input shapes
is not empty, the one inferred shape is marked unknown, whatever the inputs
and the other arguments are. -/
theorem FillerTensorInference_input_as_shape (def_ : OperatorDef) (in_ : List TensorShape)
    (h : (ArgumentHelper.ofDef def_).GetSingleArgument_bool "input_as_shape" false = true)
    (hin : in_ ≠ []) :
    (FillerTensorInference def_ in_).map TensorShape.unknown_shape = [true] := by
  cases in_ with
  | nil => exact absurd rfl hin
  | cons in0 rest => simp [FillerTensorInference_cons_unknown def_ in0 rest h]

/-- C3 amended, at one input of shape `[4]`. -/
theorem FillerTensorInference_input_as_shape_witness :
    (ArgumentHelper.ofDef (CreateOperatorDef "ConstantFill"
        [MakeArgument_int "input_as_shape" 1, MakeArgument_ints "extra_shape" [5]])).GetSingleArgument_bool
        "input_as_shape" false = true ∧
    [({ dims := [4], data_type := 2, unknown_shape := false } : TensorShape)] ≠ [] ∧
    (FillerTensorInference (CreateOperatorDef "ConstantFill"
        [MakeArgument_int "input_as_shape" 1, MakeArgument_ints "extra_shape" [5]])
        [{ dims := [4], data_type := 2, unknown_shape := false }]).map
      TensorShape.unknown_shape = [true] :=
  ⟨by decide, by decide,
   FillerTensorInference_input_as_shape
     (CreateOperatorDef "ConstantFill"
        [MakeArgument_int "input_as_shape" 1, MakeArgument_ints "extra_shape" [5]])
     [{ dims := [4], data_type := 2, unknown_shape := false }] (by decide) (by decide)⟩

/-! ### C4 -/

/-- C4: for every operator definition and every list of input shapes, the
data-type tag of the inferred shape is the `dtype` argument (read as an
`int`) when the argument is present and the tag of 32-bit float when it is
absent; the list of inputs and the other arguments, which select the branch,
play no part. -/
theorem FillerTensorInference_data_type (def_ : OperatorDef) (in_ : List TensorShape) :
    (FillerTensorInference def_ in_).map TensorShape.data_type =
      [match (ArgumentHelper.ofDef def_).find "dtype" with
       | some a => static_cast_int a.i
       | none => TensorProto_DataType_FLOAT] := by
  have hd : (ArgumentHelper.ofDef def_).GetSingleArgument_int "dtype"
      TensorProto_DataType_FLOAT =
      (match (ArgumentHelper.ofDef def_).find "dtype" with
       | some a => static_cast_int a.i
       | none => TensorProto_DataType_FLOAT) := by
    unfold ArgumentHelper.GetSingleArgument_int
    cases (ArgumentHelper.ofDef def_).find "dtype" <;> rfl
  cases in_ with
  | nil => simp [FillerTensorInference_nil, hd]
  | cons in0 rest =>
    cases hb : (ArgumentHelper.ofDef def_).GetSingleArgument_bool "input_as_shape" false with
    | true => simp [FillerTensorInference_cons_unknown def_ in0 rest hb, hd]
    | false => simp [FillerTensorInference_cons_known def_ in0 rest hb, hd]

/-! ### C5 -/

/-- C5 as stated fails on a buffer of 16777218 elements: the call returns
true, but position 16777217 holds 16777216, the `float` nearest to
16777217. -/
theorem Fill_position_16777217 :
    ∃ out : TensorCPU,
      RangeFillOp.Fill (TensorCPU.mk [16777218] (List.replicate 16777218 0)) =
        some (true, out) ∧
      out.data[16777217]? = some 16777216 := by
  refine ⟨_, Fill_large_buffer, ?_⟩
  dsimp only
  rw [getElem?_map_range _ 16777218 16777217 (by norm_num)]
  exact congrArg some static_cast_float_16777217

/-- C5, amended: on a tensor whose storage holds its `n` elements, with `n`
at most `INT_MAX`, `Fill` returns true, leaves the dimensions alone and
leaves in position `i` the `float` nearest to `i`, for every `i < n`; that
`float` is `i` itself for every `i` up to 16777216, so the buffer holds
exactly `0, 1, ..., n-1` whenever `n` is at most 16777217. -/
theorem Fill_range (output : TensorCPU) (hw : output.WellFormed)
    (hn : (output.size : Int) ≤ INT_MAX) :
    RangeFillOp.Fill output =
      some (true, { dims := output.dims,
                    data := (List.range output.size).map
                      (fun (i : Nat) => static_cast_float (i : Int)) }) ∧
    (∀ i : Nat, i ≤ 16777216 → static_cast_float (i : Int) = (i : Int)) ∧
    (output.size ≤ 16777217 →
      RangeFillOp.Fill output =
        some (true, { dims := output.dims,
                      data := (List.range output.size).map (fun (i : Nat) => (i : Int)) })) := by
  refine ⟨Fill_eq output hw hn, static_cast_float_of_le, ?_⟩
  intro hsmall
  rw [Fill_eq output hw hn, map_static_cast_float_range output.size hsmall]

/-- C5 amended, at a buffer of shape `[2, 3]`. -/
theorem Fill_range_witness :
    TensorCPU.WellFormed (TensorCPU.mk [2, 3] [7, 7, 7, 7, 7, 7]) ∧
    ((TensorCPU.mk [2, 3] [7, 7, 7, 7, 7, 7]).size : Int) ≤ INT_MAX ∧
    RangeFillOp.Fill (TensorCPU.mk [2, 3] [7, 7, 7, 7, 7, 7]) =
      some (true, TensorCPU.mk [2, 3] [0, 1, 2, 3, 4, 5]) :=
  ⟨by decide, by decide,
   (Fill_range (TensorCPU.mk [2, 3] [7, 7, 7, 7, 7, 7]) (by decide) (by decide)).2.2
     (by decide)⟩

/-! ### C6 -/

/-- C6: `GivenTensorStringFill` is registered as a CPU operator and is not
registered as no-gradient; it is the only registered operator that is not. -/
theorem GivenTensorStringFill_not_no_gradient :
    "GivenTensorStringFill" ∈ RegisteredCPUOperators ∧
    "GivenTensorStringFill" ∉ NoGradientRegistry ∧
    RegisteredCPUOperators.filter (fun n => !NoGradientRegistry.contains n) =
      ["GivenTensorStringFill"] := by
  decide

/-! ### C7 -/

/-- C7: every operator registered as a CPU operator has a schema entry; the
entry declares exactly one output, and it declares exactly one input for
`LengthsRangeFill` and between 0 and 1 inputs for every other operator. -/
theorem OpSchemaRegistry_arity (name : String) (h : name ∈ RegisteredCPUOperators) :
    ∃ schema : OpSchema,
      OpSchemaRegistry.Schema name = some schema ∧
      schema.min_output = 1 ∧ schema.max_output = 1 ∧
      (if name = "LengthsRangeFill" then schema.min_input = 1 ∧ schema.max_input = 1
       else schema.min_input = 0 ∧ schema.max_input = 1) := by
  simp only [RegisteredCPUOperators, CPUOperatorRegistry, List.map_cons, List.map_nil,
    List.mem_cons, List.mem_singleton, List.mem_nil_iff, or_false] at h
  rcases h with h | h | h | h | h | h | h | h | h | h | h | h <;> subst h <;>
    exact ⟨_, rfl, by decide⟩

/-- C7, at `RangeFill`. -/
theorem OpSchemaRegistry_arity_witness :
    "RangeFill" ∈ RegisteredCPUOperators ∧
    ∃ schema : OpSchema,
      OpSchemaRegistry.Schema "RangeFill" = some schema ∧
      schema.min_output = 1 ∧ schema.max_output = 1 ∧
      (if "RangeFill" = "LengthsRangeFill" then schema.min_input = 1 ∧ schema.max_input = 1
       else schema.min_input = 0 ∧ schema.max_input = 1) :=
  ⟨by decide, OpSchemaRegistry_arity "RangeFill" (by decide)⟩

/-! ### C8 -/

/-- C8: for an operator definition with no `shape` argument and no input
shapes, the result is one shape with no dimensions that is not marked
unknown. -/
theorem FillerTensorInference_no_shape (def_ : OperatorDef)
    (h : (ArgumentHelper.ofDef def_).HasArgument "shape" = false) :
    FillerTensorInference def_ [] =
      [{ dims := [],
         data_type := (ArgumentHelper.ofDef def_).GetSingleArgument_int "dtype"
           TensorProto_DataType_FLOAT,
         unknown_shape := false }] := by
  have hs : (ArgumentHelper.ofDef def_).GetRepeatedArgument_int "shape" = [] := by
    unfold ArgumentHelper.HasArgument at h
    unfold ArgumentHelper.GetRepeatedArgument_int
    cases hf : (ArgumentHelper.ofDef def_).find "shape" with
    | none => rfl
    | some a => simp [hf] at h
  rw [FillerTensorInference_nil, hs]

/-- C8, at a definition that only sets `dtype`. -/
theorem FillerTensorInference_no_shape_witness :
    (ArgumentHelper.ofDef (CreateOperatorDef "XavierFill"
        [MakeArgument_int "dtype" 10])).HasArgument "shape" = false ∧
    FillerTensorInference (CreateOperatorDef "XavierFill" [MakeArgument_int "dtype" 10]) [] =
      [{ dims := [], data_type := 10, unknown_shape := false }] :=
  ⟨by decide,
   FillerTensorInference_no_shape (CreateOperatorDef "XavierFill" [MakeArgument_int "dtype" 10])
     (by decide)⟩

/-! ### C9 -/

/-- C9: two calls give the same result as soon as the two operator
definitions agree on `dtype` and either both input lists are empty and the
definitions agree on `shape`, or both input lists are non-empty, their first
shapes have the same dimensions and the definitions agree on
`input_as_shape`. Nothing else is read: not `extra_shape`, `value` or the
operator type, not the data type of the first input or any further input,
and not `shape` when an input is present. In particular two definitions
that agree on all three arguments give equal results on such inputs. -/
theorem FillerTensorInference_reads (def1 def2 : OperatorDef) (in1 in2 : List TensorShape)
    (hdtype : (ArgumentHelper.ofDef def1).GetSingleArgument_int "dtype"
        TensorProto_DataType_FLOAT =
      (ArgumentHelper.ofDef def2).GetSingleArgument_int "dtype" TensorProto_DataType_FLOAT)
    (hin : (in1 = [] ∧ in2 = [] ∧
        (ArgumentHelper.ofDef def1).GetRepeatedArgument_int "shape" =
          (ArgumentHelper.ofDef def2).GetRepeatedArgument_int "shape") ∨
      (∃ a as b bs, in1 = a :: as ∧ in2 = b :: bs ∧ a.dims = b.dims ∧
        (ArgumentHelper.ofDef def1).GetSingleArgument_bool "input_as_shape" false =
          (ArgumentHelper.ofDef def2).GetSingleArgument_bool "input_as_shape" false)) :
    FillerTensorInference def1 in1 = FillerTensorInference def2 in2 := by
  rcases hin with ⟨h1, h2, hs⟩ | ⟨a, as, b, bs, h1, h2, hd, hb⟩
  · subst h1
    subst h2
    rw [FillerTensorInference_nil, FillerTensorInference_nil, hdtype, hs]
  · subst h1
    subst h2
    cases hb2 : (ArgumentHelper.ofDef def2).GetSingleArgument_bool "input_as_shape" false with
    | true =>
      rw [FillerTensorInference_cons_unknown def1 a as (hb.trans hb2),
        FillerTensorInference_cons_unknown def2 b bs hb2, hdtype]
    | false =>
      rw [FillerTensorInference_cons_known def1 a as (hb.trans hb2),
        FillerTensorInference_cons_known def2 b bs hb2, hdtype, hd]

/-- C9, at two definitions that differ in the operator type, in `shape`,
`extra_shape` and `value`, on inputs that differ in the data type of the
first shape and in the further shapes. -/
theorem FillerTensorInference_reads_witness :
    FillerTensorInference
        (CreateOperatorDef "ConstantFill"
          [MakeArgument_int "dtype" 2, MakeArgument_ints "extra_shape" [7],
           MakeArgument_int "value" 3])
        [{ dims := [4, 5], data_type := 1, unknown_shape := false }] =
      FillerTensorInference
        (CreateOperatorDef "UniformIntFill"
          [MakeArgument_ints "shape" [9], MakeArgument_int "dtype" 2])
        [{ dims := [4, 5], data_type := 10, unknown_shape := true },
         { dims := [6], data_type := 1, unknown_shape := false }] :=
  FillerTensorInference_reads
    (CreateOperatorDef "ConstantFill"
      [MakeArgument_int "dtype" 2, MakeArgument_ints "extra_shape" [7],
       MakeArgument_int "value" 3])
    (CreateOperatorDef "UniformIntFill"
      [MakeArgument_ints "shape" [9], MakeArgument_int "dtype" 2])
    [{ dims := [4, 5], data_type := 1, unknown_shape := false }]
    [{ dims := [4, 5], data_type := 10, unknown_shape := true },
     { dims := [6], data_type := 1, unknown_shape := false }]
    (by decide)
    (Or.inr ⟨_, _, _, _, rfl, rfl, by decide, by decide⟩)

/-! ### C10 -/

/-- C10: the result is a list of exactly one shape, and when that shape is
marked unknown it has no dimensions. -/
theorem FillerTensorInference_one_shape (def_ : OperatorDef) (in_ : List TensorShape) :
    (FillerTensorInference def_ in_).length = 1 ∧
    ∃ out0 : TensorShape, FillerTensorInference def_ in_ = [out0] ∧
      (out0.unknown_shape = true → out0.dims = []) := by
  cases in_ with
  | nil =>
    rw [FillerTensorInference_nil]
    exact ⟨rfl, _, rfl, by simp⟩
  | cons in0 rest =>
    cases hb : (ArgumentHelper.ofDef def_).GetSingleArgument_bool "input_as_shape" false with
    | true =>
      rw [FillerTensorInference_cons_unknown def_ in0 rest hb]
      exact ⟨rfl, _, rfl, by simp⟩
    | false =>
      rw [FillerTensorInference_cons_known def_ in0 rest hb]
      exact ⟨rfl, _, rfl, by simp⟩

end caffe2
